import Mathlib

/-!
Shallow embedding of the bill-wiz repository (CFDI invoice → QuickBooks bill
pipeline) and verification of its natural-language specification.

Embedded source files:
* src/parsers/xml_parser.py  — `parse_bill` (invoice extractor)
* src/main.py                — the SKU-extraction block of `format_bill_data`
* src/qb/qb_bill.py          — `create_sku_mapping`, `get_item_by_name`,
  `find_item_by_sku_or_name`, `build_quickbooks_bill`

Python strings are modelled as Lean `String`; Python `dict`s used as string
maps are modelled as association lists where the most recent write is found
first (so a later write shadows an earlier one, matching dict overwrite).
Python float values that the code only parses, compares to zero and floors
are modelled as `ℚ`; a value of `none` for an `Option ℚ` field stands for a
`float(...)` conversion failure (ValueError/TypeError).  Network calls
(`run_query`) are modelled by an explicit oracle `String → List QBItem`
mapping a query string to the returned item list; an empty list stands for
every failure mode the code treats alike (non-200 response, missing
QueryResponse/Item keys, empty result).  The Streamlit session cache
`st.session_state.item_cache` is threaded explicitly as a value.
-/

namespace BillWiz

/-! ### Python string primitives (structural, kernel-reducible) -/

/-- Lowercase a string character-wise: Python `str.lower` for the ASCII
strings this program manipulates. -/
def pyLower (s : String) : String := String.mk (s.toList.map Char.toLower)

/-- Keep only alphanumeric characters: Python
`"".join(c for c in s if c.isalnum())` for ASCII strings. -/
def alnumOnly (s : String) : String := String.mk (s.toList.filter Char.isAlphanum)

/-- Python `str.strip()` with no argument: drop leading and trailing
whitespace. -/
def pyStrip (s : String) : String :=
  String.mk (((s.toList.dropWhile Char.isWhitespace).reverse.dropWhile
    Char.isWhitespace).reverse)

/-- Index of the first occurrence of `needle` in `hay`
(Python `str.find`, as an `Option` instead of `-1`). -/
def findSub (needle : List Char) : List Char → Option Nat
  | [] => if needle = [] then some 0 else none
  | h :: t =>
    if List.isPrefixOf needle (h :: t) then some 0
    else (findSub needle t).map (· + 1)

/-- Python substring containment `needle in hay`. -/
def pyInS (needle hay : String) : Bool :=
  (findSub needle.toList hay.toList).isSome

/-- Split at the first occurrence of `needle`: Python `hay.split(needle, 1)`
when `needle` occurs, i.e. the text before and the text after the first
occurrence. -/
def splitFirst (needle hay : List Char) : Option (List Char × List Char) :=
  (findSub needle hay).map (fun i => (hay.take i, hay.drop (i + needle.length)))

/-- The segment of `hay` between the first and second occurrence of `needle`
(all of the rest when `needle` occurs only once): Python
`hay.split(needle)[1]`, `none` when `needle` does not occur (where Python
would raise IndexError). -/
def segAfterFirst (needle hay : List Char) : Option (List Char) :=
  (splitFirst needle hay).map (fun p =>
    match findSub needle p.2 with
    | some j => p.2.take j
    | none => p.2)

/-- Split on every occurrence of a single character: Python `s.split(c)`
for a one-character separator. -/
def splitOnChar (c : Char) : List Char → List (List Char)
  | [] => [[]]
  | x :: xs =>
    let r := splitOnChar c xs
    if x = c then [] :: r
    else
      match r with
      | [] => [[x]]
      | h :: t => (x :: h) :: t

/-- Python `s.split()`: split on whitespace runs, discarding empty tokens. -/
def wsTokens (cs : List Char) : List String :=
  (((cs.foldr
      (fun c (acc : List (List Char)) =>
        if Char.isWhitespace c then [] :: acc
        else
          match acc with
          | [] => [[c]]
          | h :: t => (c :: h) :: t)
      [[]]).filter (· ≠ [])).map String.mk)

/-! ### Python dict modelled as an association list (latest write first) -/

/-- A Python `dict[str, str]`. -/
abbrev Dict := List (String × String)

/-- `d[k] = v`: the new binding shadows any earlier one. -/
def dput (m : Dict) (k v : String) : Dict := (k, v) :: m

/-- `d.get(k)`: the most recent binding for `k`. -/
def dget (m : Dict) (k : String) : Option String :=
  (m.find? (fun p => p.1 == k)).map (·.2)

/-- `k in d`. -/
def dmem (m : Dict) (k : String) : Bool := (dget m k).isSome

/-! ### Item Index Builder — `create_sku_mapping` (src/qb/qb_bill.py 304–362) -/

/-- The registrations `create_sku_mapping` performs for one catalog entry
`(name, item_id)`, in source order: full lowercased name; on a colon, the
parent and child components; on a dash inside the child, its last and first
segments and (when different) the alphanumeric-stripped child; finally the
alphanumeric-stripped whole name when it differs from the lowercased name. -/
def addEntry (m : Dict) (name item_id : String) : Dict :=
  let m := dput m (pyLower name) item_id
  let m :=
    if pyInS ":" name then
      match splitFirst [':'] name.toList with
      | some (parentL, childL) =>
        let parent_sku := String.mk parentL
        let child_sku := String.mk childL
        let m := dput m (pyLower parent_sku) item_id
        let m := dput m (pyLower child_sku) item_id
        if pyInS "-" child_sku then
          let child_parts := splitOnChar '-' child_sku.toList
          let m := dput m (pyLower (String.mk (child_parts.getLastD []))) item_id
          let m := dput m (pyLower (String.mk (child_parts.headD []))) item_id
          let child_sku_clean := alnumOnly (pyLower child_sku)
          if child_sku_clean ≠ pyLower child_sku then dput m child_sku_clean item_id
          else m
        else m
      | none => m
    else m
  let clean_name := alnumOnly (pyLower name)
  if clean_name ≠ pyLower name then dput m clean_name item_id else m

/-- `create_sku_mapping(items_list)`: fold the registrations of every
catalog entry, in order, into one mapping. -/
def create_sku_mapping (items_list : List (String × String)) : Dict :=
  items_list.foldl (fun m p => addEntry m p.1 p.2) []

/-! ### Invoice Extractor — `parse_bill` (src/parsers/xml_parser.py 25–110) -/

/-- One `cfdi:Concepto` element: the five attributes the parser reads, each
`none` when the attribute is absent (Python `attrib.get`). -/
structure Concepto where
  descripcion : String := ""
  noIdentificacion : String := ""
  cantidad : Option String := none
  valorUnitario : Option String := none
  importe : Option String := none
deriving DecidableEq

/-- A well-formed CFDI root element: the `Folio` attribute and the optional
`cfdi:Conceptos` child collection (`none` when `root.find` returns `None`). -/
structure CfdiRoot where
  folio : Option String := none
  conceptos : Option (List Concepto) := none
deriving DecidableEq

/-- The input handed to the extractor: either markup that cannot be parsed
(where `ET.parse` raises `ParseError`) or a parsed root element. -/
inductive XmlInput
  | malformed
  | wellFormed (root : CfdiRoot)
deriving DecidableEq

/-- The fatal extractor failure: `xml.etree.ElementTree.ParseError`,
re-raised by `parse_bill`. -/
inductive ParseErr
  | parseError
deriving DecidableEq

/-- The dictionary `parse_bill` builds per concept element. -/
structure ParsedLineItem where
  product : String
  sku : String
  parent_sku : String
  product_id : String
  description : String
  full_description : String
  quantity : String
  rate : String
  amount : String
deriving DecidableEq

/-- The line-item dictionary built for one concept element
(src/parsers/xml_parser.py 50–96): attribute defaults, the `SKU:`
extraction, the dash parent split and the `parent:sku` product field. -/
def conceptoToLineItem (c : Concepto) : ParsedLineItem :=
  let full_description := c.descripcion
  let product_id := c.noIdentificacion
  let cantidad := c.cantidad.getD "1.0000"
  let valor_unitario := c.valorUnitario.getD "0.0000"
  let importe := c.importe.getD "0.0000"
  let skuTriple :=
    if pyInS "SKU:" full_description then
      let sku_part :=
        pyStrip (String.mk ((segAfterFirst "SKU:".toList full_description.toList).getD []))
      let sku := if pyInS " " sku_part then (wsTokens sku_part.toList).headD "" else sku_part
      let parent_sku :=
        if pyInS "-" sku then String.mk ((splitOnChar '-' sku.toList).headD []) else sku
      (sku, parent_sku, parent_sku ++ ":" ++ sku)
    else ("", "", product_id)
  { product := skuTriple.2.2
    sku := skuTriple.1
    parent_sku := skuTriple.2.1
    product_id := product_id
    description := product_id
    full_description := full_description
    quantity := cantidad
    rate := valor_unitario
    amount := importe }

/-- `parse_bill`: re-raises `ParseError` on malformed markup; otherwise
reads `Folio` and, when the `cfdi:Conceptos` element is absent, only logs an
error and returns the invoice number with an empty line-item list.
(The Python function also returns a DataFrame view of the same list, and
raises `FileNotFoundError` for a missing file — a file-system concern
outside the document model.) -/
def parse_bill : XmlInput → Except ParseErr (String × List ParsedLineItem)
  | .malformed => .error .parseError
  | .wellFormed root =>
    let invoice_number := root.folio.getD ""
    match root.conceptos with
    | none => .ok (invoice_number, [])
    | some cs => .ok (invoice_number, cs.map conceptoToLineItem)

/-! ### SKU Normalizer — the SKU-extraction block of `format_bill_data`
(src/main.py 72–99) -/

/-- Python `description[start:end]` contents of the first
`open`…`close` pair, mirroring `start = find(open) + 1;
end = find(close, start); if end > start: description[start:end]`. -/
def bracketContents (description : String) (opc clc : Char) : Option String :=
  let cs := description.toList
  match findSub [opc] cs with
  | none => none
  | some i =>
    let start := i + 1
    match (findSub [clc] (cs.drop start)).map (· + start) with
    | none => none
    | some e =>
      if start < e then some (String.mk ((cs.drop start).take (e - start)))
      else none

/-- Python `s.split()[0].strip()`, with the empty string standing for the
IndexError Python raises when there is no token at all. -/
def firstTokenStripped (s : String) : String :=
  pyStrip ((wsTokens s.toList).headD "")

/-- The SKU-extraction rule chain of `format_bill_data` (src/main.py 72–99):
`NoIdentificacion` when non-empty, else the token after `SKU:`, else the
token after `Codigo:`/`Código:`, else a bracketed `[...]` segment, else a
parenthesized `(...)` segment kept only when it contains a digit or is
shorter than 10 characters, else the empty string. -/
def format_bill_data_sku (description no_identificacion : String) : String :=
  if no_identificacion ≠ "" then no_identificacion
  else if pyInS "SKU:" description then
    firstTokenStripped
      (String.mk ((segAfterFirst "SKU:".toList description.toList).getD []))
  else if pyInS "Codigo:" description || pyInS "Código:" description then
    let sku_part :=
      if pyInS "Codigo:" description then
        String.mk ((segAfterFirst "Codigo:".toList description.toList).getD [])
      else String.mk ((segAfterFirst "Código:".toList description.toList).getD [])
    firstTokenStripped sku_part
  else if pyInS "[" description && pyInS "]" description then
    match bracketContents description '[' ']' with
    | some c => pyStrip c
    | none => ""
  else if pyInS "(" description && pyInS ")" description then
    match bracketContents description '(' ')' with
    | some c =>
      let potential_sku := pyStrip c
      if potential_sku.toList.any Char.isDigit || decide (potential_sku.length < 10) then
        potential_sku
      else ""
    | none => ""
  else ""

/-! ### Live item lookup — `get_item_by_name`, `find_item_by_sku_or_name`
(src/qb/qb_bill.py 130–252) -/

/-- One QuickBooks item as returned by a query. -/
structure QBItem where
  Id : String
  Name : String
deriving DecidableEq

/-- The query oracle standing for `run_query`: the list of items a query
string returns.  The empty list stands for every outcome the code treats
alike — a failed or non-200 response, a missing `QueryResponse`/`Item` key,
or an empty result list. -/
abbrev Oracle := String → List QBItem

/-- The per-session lookup cache `st.session_state.item_cache`, threaded
explicitly: cache key ↦ cached lookup result (which may itself be `none`). -/
abbrev ItemCache := List (String × Option QBItem)

/-- Cache read (latest write first). -/
def cacheGet (c : ItemCache) (k : String) : Option (Option QBItem) :=
  (c.find? (fun p => p.1 == k)).map (·.2)

/-- Cache write. -/
def cachePut (c : ItemCache) (k : String) (v : Option QBItem) : ItemCache :=
  (k, v) :: c

/-- The ASCII single quote, kept out of string literals. -/
def sq : String := String.singleton (Char.ofNat 39)

/-- Python `item_name.replace(single-quote, "").replace(double-quote, "")`. -/
def cleanQuotes (s : String) : String :=
  String.mk (s.toList.filter (fun c => c != Char.ofNat 39 && c != Char.ofNat 34))

/-- The exact-name query string built by `get_item_by_name`. -/
def itemQueryExact (n : String) : String :=
  "SELECT Id, Name, Type, Description FROM Item WHERE Name = " ++ sq ++ n ++ sq

/-- The LIKE query string built by `get_item_by_name` and
`find_item_by_sku_or_name`. -/
def itemQueryLike (n : String) : String :=
  "SELECT Id, Name, Type, Description FROM Item WHERE Name LIKE " ++ sq ++ "%" ++ n
    ++ "%" ++ sq

/-- `get_item_by_name(item_name)`: strip quotes, try the exact-name query,
then the LIKE query, returning the first item of the first non-empty
response; also returns the list of queries issued. -/
def get_item_by_name (oracle : Oracle) (item_name : String) :
    Option QBItem × List String :=
  let clean_name := cleanQuotes item_name
  let q1 := itemQueryExact clean_name
  match oracle q1 with
  | it :: _ => (some it, [q1])
  | [] =>
    let q2 := itemQueryLike clean_name
    match oracle q2 with
    | it :: _ => (some it, [q1, q2])
    | [] => (none, [q1, q2])

/-- `find_item_by_sku_or_name(name, sku)` (a `sku` of `""` also stands for
Python `None`): returns the found item, the list of queries issued, and the
updated session cache.  Mirrors the source order: the empty-inputs guard,
the cache hit, the SKU LIKE query with its delimiter-pattern preference
(`:sku` or `-sku` or plain substring) falling back to the first result,
then the name search via `get_item_by_name`. -/
def find_item_by_sku_or_name (oracle : Oracle) (name sku : String)
    (cache : ItemCache) : Option QBItem × List String × ItemCache :=
  if name == "" && sku == "" then (none, [], cache)
  else
    let clean_name := cleanQuotes name
    let cache_key := clean_name ++ ":" ++ sku
    match cacheGet cache cache_key with
    | some v => (v, [], cache)
    | none =>
      let skuStep : Option QBItem × List String :=
        if sku != "" && pyStrip sku != "" then
          let q := itemQueryLike sku
          match oracle q with
          | [] => (none, [q])
          | it :: rest =>
            match (it :: rest).find? (fun item =>
                pyInS (":" ++ sku) item.Name || pyInS ("-" ++ sku) item.Name
                  || pyInS sku item.Name) with
            | some m => (some m, [q])
            | none => (some it, [q])
        else (none, [])
      match skuStep with
      | (some it, qs) => (some it, qs, cachePut cache cache_key (some it))
      | (none, qs) =>
        if clean_name != "" then
          let r := get_item_by_name oracle clean_name
          (r.1, qs ++ r.2, cachePut cache cache_key r.1)
        else (none, qs, cachePut cache cache_key none)

/-! ### Line Reconciler / Bill Assembler — `build_quickbooks_bill`
(src/qb/qb_bill.py 365–565) -/

/-- One parsed line item as consumed by the builder.  `amount` models
`float(item.get("amount", 0))` — `none` stands for a conversion failure
(the code then uses `0.0`); `quantity` models `float(item.get("quantity", 1))`
— `none` stands for a conversion failure (the code then uses `1.0`). -/
structure LineItem where
  product : String := ""
  sku : String := ""
  description : String := ""
  amount : Option ℚ := none
  quantity : Option ℚ := none
deriving DecidableEq

/-- The parsed bill dictionary: invoice number and line items.  An absent
`line_items` key and an empty list are treated alike by the code. -/
structure BillData where
  invoice_number : String := ""
  line_items : List LineItem := []
deriving DecidableEq

/-- The `bill_data` argument as a dynamically typed Python value.  The code
calls `bill_data.get("invoice_number", "")` (line 381) BEFORE its
`None`/`isinstance` guard (line 387), so `None` and any non-dict without a
`get` method raise `AttributeError` there; only a non-dict that does expose
`get` reaches the guard and its graceful return. -/
inductive BillArg
  | pyNone
  | nonDictNoGet
  | nonDictWithGet
  | valid (bd : BillData)
deriving DecidableEq

/-- The uncaught Python exception the builder can raise. -/
inductive PyErr
  | attributeError
deriving DecidableEq

/-- A QuickBooks bill line in either detail shape.  The truncated source
never constructs one: its loop computes a match for every line but never
appends to `qb_line_items`. -/
inductive QBLine
  | itemBased (itemId : String) (qty unitPrice amount : ℚ) (descr : String)
  | accountBased (accountId : String) (amount : ℚ) (descr : String)
deriving DecidableEq

/-- The assembled bill payload: `VendorRef`, `TxnDate`, `Line`, and the
optional `DocNumber`. -/
structure QBBill where
  vendorRef : String
  txnDate : String
  line : List QBLine
  docNumber : Option String := none
deriving DecidableEq

/-- Python falsiness of the `item_id` variable: `None` or the empty
string. -/
def optIdFalsy : Option String → Bool
  | none => true
  | some s => s == ""

/-- The quantity the loop computes (src/qb/qb_bill.py 458–466): parse
failure defaults to `1.0`, then non-positive values are floored to `1.0`.
Dead code in the truncated loop body, kept for fidelity. -/
def flooredQuantity (item : LineItem) : ℚ :=
  let q := item.quantity.getD 1
  if q ≤ 0 then 1 else q

/-- The ordered `match_attempts` list (src/qb/qb_bill.py 480–505): the
lowercased product, then the lowercased SKU, on a dash its
`parent:sku` / parent / child forms, and finally the alphanumeric-stripped
SKU when it differs. -/
def matchAttempts (product_name sku : String) : List String :=
  (if product_name ≠ "" then [pyLower product_name] else [])
    ++ (if sku ≠ "" then
          [pyLower sku]
            ++ (if pyInS "-" sku then
                  let parts := splitOnChar '-' sku.toList
                  let parent := pyLower (String.mk (parts.headD []))
                  let child := pyLower (String.mk (parts.getD 1 []))
                  [pyLower (parent ++ ":" ++ sku), parent, child]
                else [])
            ++ (let sku_clean := alnumOnly (pyLower sku)
                if sku_clean ≠ pyLower sku then [sku_clean] else [])
        else [])

/-- The first attempt that is non-empty and present in the index wins
(src/qb/qb_bill.py 511–515). -/
def mapLookup (items_map : Dict) (attempts : List String) : Option String :=
  match attempts.find? (fun a => a != "" && dmem items_map a) with
  | some a => dget items_map a
  | none => none

/-- The three direct-QuickBooks fallback lookups (src/qb/qb_bill.py 517–548):
by product name, then by SKU, then by description, each only while
`item_id` is still falsy, threading the session cache. -/
def directLookup (oracle : Oracle) (product_name sku description : String)
    (c : ItemCache) : Option String × ItemCache :=
  let step1 : Option String × ItemCache :=
    if product_name ≠ "" then
      let r := find_item_by_sku_or_name oracle product_name "" c
      match r.1 with
      | some it => (some it.Id, r.2.2)
      | none => (none, r.2.2)
    else (none, c)
  let step2 : Option String × ItemCache :=
    if optIdFalsy step1.1 && sku != "" then
      let r := find_item_by_sku_or_name oracle "" sku step1.2
      match r.1 with
      | some it => (some it.Id, r.2.2)
      | none => (step1.1, r.2.2)
    else step1
  if optIdFalsy step2.1 && description != "" then
    let r := find_item_by_sku_or_name oracle description "" step2.2
    match r.1 with
    | some it => (some it.Id, r.2.2)
    | none => (step2.1, r.2.2)
  else step2

/-- The loop body of `build_quickbooks_bill` for one line item
(src/qb/qb_bill.py 427–548): skip non-positive amounts, compute the (dead)
floored quantity, and in item-based mode resolve `item_id` through the
index and then the direct lookups.  The resolved `item_id` is then
discarded — the source never appends a line or a missing-item entry — so
only the session cache survives an iteration. -/
def processItem (items_map : Dict) (use_item_based_expense : Bool)
    (oracle : Oracle) (c : ItemCache) (item : LineItem) : ItemCache :=
  let amount := item.amount.getD 0
  if amount ≤ 0 then c
  else
    let product_name := item.product
    let sku := item.sku
    let description := item.description
    let _quantity := flooredQuantity item
    if use_item_based_expense then
      let item_id : Option String :=
        if !items_map.isEmpty then mapLookup items_map (matchAttempts product_name sku)
        else none
      if optIdFalsy item_id then
        (directLookup oracle product_name sku description c).2
      else c
    else c

/-- `build_quickbooks_bill(bill_data, vendor_id, account_id, txn_date,
items_map, use_item_based_expense, default_expense_account_id)`.
`catalog` stands for the `get_all_items()` result fetched when item-based
mode is on and no `items_map` was passed; `oracle` and `cache` model
`run_query` and the session cache.  `account_id` and
`default_expense_account_id` are accepted and, as in the source body,
never used.  For a `None` or get-less non-dict `bill_data` the call raises
`AttributeError` at line 381 before the guard; a get-bearing non-dict and
an empty `line_items` list take the graceful early returns; otherwise the
loop runs over every line item and — the body never appending anything —
the result is always the header with an empty `Line` list and an empty
missing-items list. -/
def build_quickbooks_bill (bill_data : BillArg) (vendor_id : String)
    (account_id : Option String) (txn_date : String) (items_map : Dict)
    (use_item_based_expense : Bool) (default_expense_account_id : Option String)
    (catalog : List (String × String)) (oracle : Oracle) (cache : ItemCache) :
    Except PyErr ((QBBill × List String) × ItemCache) :=
  match bill_data with
  | .pyNone => .error .attributeError
  | .nonDictNoGet => .error .attributeError
  | .nonDictWithGet =>
    .ok (({ vendorRef := vendor_id, txnDate := txn_date, line := [] },
      ["Invalid bill data"]), cache)
  | .valid bd =>
    if bd.line_items = [] then
      .ok (({ vendorRef := vendor_id, txnDate := txn_date, line := [] },
        ["No line items found"]), cache)
    else
      let invoice_number := bd.invoice_number
      let items_map :=
        if use_item_based_expense && items_map.isEmpty then
          if catalog.isEmpty then [] else create_sku_mapping catalog
        else items_map
      let final_cache :=
        bd.line_items.foldl (processItem items_map use_item_based_expense oracle) cache
      let qb_line_items : List QBLine := []
      let missing_items : List String := []
      let qb_bill : QBBill :=
        { vendorRef := vendor_id
          txnDate := txn_date
          line := qb_line_items
          docNumber := if invoice_number ≠ "" then some invoice_number else none }
      .ok ((qb_bill, missing_items), final_cache)

/-- Lines skipped for non-positive amount: the count of input lines whose
parsed amount (conversion failure = 0, as in the code) is `≤ 0`, i.e. the
lines the loop `continue`s over. -/
def amount_skipped_count (items : List LineItem) : Nat :=
  (items.filter (fun i => decide (i.amount.getD 0 ≤ 0))).length

/-- Positive-amount lines that match neither the index nor the direct
lookups, counted with the session cache threaded as in the loop.  Used by
the spec's §4.4 accounting invariant as the lines "dropped for lack of a
default account" when no default account id is supplied. -/
def miss_count_aux (items_map : Dict) (oracle : Oracle) :
    List LineItem → ItemCache → Nat
  | [], _ => 0
  | i :: rest, c =>
    let amount := i.amount.getD 0
    if amount ≤ 0 then miss_count_aux items_map oracle rest c
    else
      let item_id : Option String :=
        if !items_map.isEmpty then mapLookup items_map (matchAttempts i.product i.sku)
        else none
      if optIdFalsy item_id then
        let r := directLookup oracle i.product i.sku i.description c
        (if optIdFalsy r.1 then 1 else 0) + miss_count_aux items_map oracle rest r.2
      else miss_count_aux items_map oracle rest c

/-- Lines dropped for lack of a default account, per the spec's §4.4 policy:
zero when a default account id is supplied, else the unmatched
positive-amount lines. -/
def dropped_for_no_default_count (items_map : Dict) (oracle : Oracle)
    (default_expense_account_id : Option String) (cache : ItemCache)
    (items : List LineItem) : Nat :=
  match default_expense_account_id with
  | some _ => 0
  | none => miss_count_aux items_map oracle items cache

/-- A concrete single-line bill used to exercise the §4.4 accounting
invariant: one positive-amount line whose product key is in the index, with
a default expense account supplied. -/
def invLine : LineItem :=
  { product := "wood:wood-3", sku := "", description := "",
    amount := some 99, quantity := some 1 }

/-- The item index holding `invLine`'s product key. -/
def invIndex : Dict := [("wood:wood-3", "35")]

/-! ## Theorems -/

/-- C1: in ItemBased mode a positive-amount line whose match key hits the
item index is claimed to yield an ItemBased output line with
`unit_price = amount / quantity`.  Evaluating the source at such an input
(amount 150, quantity 2, product key present in the index) shows the bill's
`Line` list is empty: the loop resolves the match but the truncated body
never appends an output line. -/
theorem c1_index_hit_emits_no_item_line :
    build_quickbooks_bill
      (.valid { invoice_number := "F-1",
                line_items := [{ product := "wood:wood-1", sku := "wood-1",
                                 description := "", amount := some 150,
                                 quantity := some 2 }] })
      "V" none "2024-01-01" [("wood:wood-1", "35")] true (some "7") []
      (fun _ => []) []
      = .ok (({ vendorRef := "V", txnDate := "2024-01-01", line := [],
                docNumber := some "F-1" }, []), []) := rfl

/-- C2: a positive-amount line that misses the index and the live lookup,
with a default account id supplied, is claimed to yield an AccountBased
fallback line and an entry in the unmatched collection.  Evaluating the
source at such an input shows the bill's `Line` list and the returned
missing-items list are both empty (only the session cache records the
failed lookup): the truncated loop body has no fallback branch. -/
theorem c2_miss_with_default_emits_no_fallback :
    build_quickbooks_bill
      (.valid { invoice_number := "F-2",
                line_items := [{ product := "unknownprod", sku := "",
                                 description := "", amount := some 50,
                                 quantity := some 1 }] })
      "V" none "2024-01-01" [("other", "1")] true (some "7") []
      (fun _ => []) []
      = .ok (({ vendorRef := "V", txnDate := "2024-01-01", line := [],
                docNumber := some "F-2" }, []), [("unknownprod:", none)]) := rfl

/-- C3: the claimed invariant is `output_lines + dropped_for_no_default +
amount_skipped = input_lines`.  On a one-line input with positive amount, a
matching index key and a default account supplied, all three summands
evaluate to zero while the input has one line, so the invariant fails: the
matched line is neither emitted nor accounted for anywhere. -/
theorem c3_accounting_invariant_fails :
    (build_quickbooks_bill
        (.valid { invoice_number := "F-3", line_items := [invLine] })
        "V" none "2024-02-02" invIndex true (some "7") [] (fun _ => []) []).map
        (fun r => r.1.1.line.length
          + dropped_for_no_default_count invIndex (fun _ => []) (some "7") [] [invLine]
          + amount_skipped_count [invLine])
      = .ok 0 ∧ [invLine].length = 1 := ⟨rfl, rfl⟩

/-- C4: `parse_bill` fails exactly on input that cannot be parsed as
well-formed markup, and on a parsed document whose `cfdi:Conceptos` element
is absent it does not fail: it returns the `Folio` invoice number together
with an empty line-item list. -/
theorem c4_parse_error_iff_malformed (inp : XmlInput) :
    ((∃ e, parse_bill inp = .error e) ↔ inp = .malformed) ∧
    (∀ root, inp = .wellFormed root → root.conceptos = none →
      parse_bill inp = .ok (root.folio.getD "", [])) := by
  refine ⟨⟨?_, ?_⟩, ?_⟩
  · rintro ⟨e, he⟩
    cases inp with
    | malformed => rfl
    | wellFormed root =>
      cases hc : root.conceptos <;> simp [parse_bill, hc] at he
  · rintro rfl
    exact ⟨.parseError, rfl⟩
  · rintro root rfl hc
    simp [parse_bill, hc]

/-- C4 witness: a parsed document with `Folio = "123"` and no
`cfdi:Conceptos` element extracts to the invoice number with an empty
line-item list. -/
theorem c4_witness :
    parse_bill (.wellFormed { folio := some "123", conceptos := none })
      = .ok ("123", []) :=
  (c4_parse_error_iff_malformed
      (.wellFormed { folio := some "123", conceptos := none })).2
    { folio := some "123", conceptos := none } rfl rfl

/-- C5: from the single catalog entry `"24fauxbois:24fauxbois-sharbor"`,
`create_sku_mapping` registers the full name, the parent component, the
child component and the child's last dash-segment, all mapped to the
entry's item id. -/
theorem c5_sku_mapping_keys :
    dget (create_sku_mapping [("24fauxbois:24fauxbois-sharbor", "42")])
        "24fauxbois:24fauxbois-sharbor" = some "42" ∧
    dget (create_sku_mapping [("24fauxbois:24fauxbois-sharbor", "42")])
        "24fauxbois" = some "42" ∧
    dget (create_sku_mapping [("24fauxbois:24fauxbois-sharbor", "42")])
        "24fauxbois-sharbor" = some "42" ∧
    dget (create_sku_mapping [("24fauxbois:24fauxbois-sharbor", "42")])
        "sharbor" = some "42" := ⟨rfl, rfl, rfl, rfl⟩

/-- C6 counterexample: the claim says the parenthesized-segment guard
rejects the content `"a"`, yielding an empty SKU — but the guard accepts
any content shorter than 10 characters, so the extracted SKU is not
empty. -/
theorem c6_counterexample :
    ¬ format_bill_data_sku "Cheap gadget (a)" "" = "" := by
  intro h
  have : format_bill_data_sku "Cheap gadget (a)" "" = "a" := rfl
  rw [this] at h
  exact absurd h (by decide)

/-- C6 amended: `normalize("Cheap gadget (a)", "")` yields `full_sku = "a"`
— the parenthesized content is taken when it contains a digit OR is shorter
than 10 characters, and `"a"` (no digit, length 1 < 10) satisfies the
second disjunct. -/
theorem c6_paren_guard_accepts_short_content :
    format_bill_data_sku "Cheap gadget (a)" "" = "a" := rfl

/-- C7: a line whose amount is zero is skipped before any matching, so it
is excluded from the output lines and its product name never reaches the
returned missing-items collection. -/
theorem c7_zero_amount_line_excluded
    (bd : BillData) (vendor_id : String) (account_id : Option String)
    (txn_date : String) (items_map : Dict) (use_item_based_expense : Bool)
    (default_expense_account_id : Option String)
    (catalog : List (String × String)) (oracle : Oracle) (cache : ItemCache)
    (l : LineItem) (hl : l ∈ bd.line_items) (hz : l.amount.getD 0 = 0)
    (qb : QBBill) (missing : List String) (c' : ItemCache)
    (h : build_quickbooks_bill (.valid bd) vendor_id account_id txn_date
        items_map use_item_based_expense default_expense_account_id catalog
        oracle cache = .ok ((qb, missing), c')) :
    l.product ∉ missing ∧ qb.line = [] := by
  have hne : bd.line_items ≠ [] := List.ne_nil_of_mem hl
  simp only [build_quickbooks_bill, if_neg hne, Except.ok.injEq,
    Prod.mk.injEq] at h
  obtain ⟨⟨hqb, hmiss⟩, -⟩ := h
  subst hmiss
  subst hqb
  exact ⟨List.not_mem_nil _, rfl⟩

/-- C7 witness: a concrete zero-amount line is absent from the (empty)
missing-items list and the output `Line` list is empty. -/
theorem c7_witness :
    "p7" ∉ ([] : List String) ∧
    ({ vendorRef := "V7", txnDate := "D7", line := [],
       docNumber := some "INV7" } : QBBill).line = [] :=
  c7_zero_amount_line_excluded
    { invoice_number := "INV7",
      line_items := [{ product := "p7", sku := "", description := "",
                       amount := some 0, quantity := some 1 }] }
    "V7" none "D7" [] true none [] (fun _ => []) []
    { product := "p7", sku := "", description := "", amount := some 0,
      quantity := some 1 }
    (List.mem_singleton_self _) rfl
    { vendorRef := "V7", txnDate := "D7", line := [], docNumber := some "INV7" }
    [] [] rfl

/-- Helper for C8: the bill-and-missing-items output of
`build_quickbooks_bill` does not depend on the incoming session cache —
the only state surviving a run — so any two runs on the same inputs agree
on everything but the cache. -/
theorem build_output_cache_invariant (bill_data : BillArg) (vendor_id : String)
    (account_id : Option String) (txn_date : String) (items_map : Dict)
    (use_item_based_expense : Bool) (default_expense_account_id : Option String)
    (catalog : List (String × String)) (oracle : Oracle) (c c' : ItemCache) :
    (build_quickbooks_bill bill_data vendor_id account_id txn_date items_map
        use_item_based_expense default_expense_account_id catalog oracle
        c).map Prod.fst
      = (build_quickbooks_bill bill_data vendor_id account_id txn_date items_map
        use_item_based_expense default_expense_account_id catalog oracle
        c').map Prod.fst := by
  cases bill_data with
  | pyNone => rfl
  | nonDictNoGet => rfl
  | nonDictWithGet => rfl
  | valid bd =>
    by_cases h : bd.line_items = [] <;>
      simp [build_quickbooks_bill, h, Except.map]

/-- C8: running the reconciler twice on the same line items, index, mode,
accounts and date — the second run starting from the session cache the
first run left behind — produces the same bill and the same missing-items
list both times. -/
theorem c8_reconcile_runs_twice_same_output (bill_data : BillArg)
    (vendor_id : String) (account_id : Option String) (txn_date : String)
    (items_map : Dict) (use_item_based_expense : Bool)
    (default_expense_account_id : Option String)
    (catalog : List (String × String)) (oracle : Oracle) (cache : ItemCache)
    (r₁ r₂ : (QBBill × List String) × ItemCache)
    (h₁ : build_quickbooks_bill bill_data vendor_id account_id txn_date
        items_map use_item_based_expense default_expense_account_id catalog
        oracle cache = .ok r₁)
    (h₂ : build_quickbooks_bill bill_data vendor_id account_id txn_date
        items_map use_item_based_expense default_expense_account_id catalog
        oracle r₁.2 = .ok r₂) :
    r₁.1 = r₂.1 := by
  have h := build_output_cache_invariant bill_data vendor_id account_id
    txn_date items_map use_item_based_expense default_expense_account_id
    catalog oracle cache r₁.2
  rw [h₁, h₂] at h
  simpa [Except.map] using h

/-- C8 witness: a concrete two-run execution (one matching line, the second
run starting from the first run's cache) yields the same output both
times. -/
theorem c8_witness :
    (({ vendorRef := "V8", txnDate := "T8", line := [], docNumber := none } :
        QBBill), ([] : List String)) =
    (({ vendorRef := "V8", txnDate := "T8", line := [], docNumber := none } :
        QBBill), ([] : List String)) :=
  c8_reconcile_runs_twice_same_output
    (.valid { invoice_number := "",
              line_items := [{ product := "p8", sku := "", description := "",
                               amount := some 5, quantity := some 1 }] })
    "V8" none "T8" [("p8", "9")] true none [] (fun _ => []) []
    (({ vendorRef := "V8", txnDate := "T8", line := [], docNumber := none },
      []), [])
    (({ vendorRef := "V8", txnDate := "T8", line := [], docNumber := none },
      []), [])
    rfl rfl

/-- C9: when both the name and the SKU argument are empty (an empty SKU
also standing for Python `None`), the live item lookup returns no item,
issues no query at all, and leaves the session cache untouched. -/
theorem c9_empty_lookup_no_query (oracle : Oracle) (cache : ItemCache) :
    find_item_by_sku_or_name oracle "" "" cache = (none, [], cache) := rfl

/-- C10: the claim says a `None` bill_data is returned gracefully as an
empty-line payload with a non-empty missing-items list — but the source
calls `bill_data.get("invoice_number", "")` before its `None`/`isinstance`
guard, so a `None` bill_data raises `AttributeError` instead. -/
theorem c10_none_bill_data_raises :
    build_quickbooks_bill .pyNone "V" none "2024-01-01" [] true none []
      (fun _ => []) [] = .error .attributeError := rfl

end BillWiz
